import Mathlib

/-!
Verification of the chat relay server (`src/main.py`).

The development shallowly embeds the Python source:

* `calculator`, `get_current_datetime` and the dispatch table
  `TOOL_FUNCTIONS` (main.py lines 72-91);
* the tool catalog `TOOLS` (lines 46-70);
* `call_llm_with_tools` payload construction (lines 93-113);
* the `chat` endpoint (lines 115-144), with the downstream HTTP
  interaction abstracted as a `DownstreamOutcome` value and the two
  `except` branches as an explicit error type;
* the `health` endpoint (lines 146-149);
* the `execute_tool` endpoint (lines 152-162).

Python `eval` on strings over the calculator allow-list
`0123456789+-*/()%. ` is modelled by `pyEval`: a tokenizer and a
recursive-descent evaluator for Python arithmetic expressions
(int and float literals, binary `+ - * / // % **`, unary signs,
parentheses, Python precedence and floor-division / modulo semantics).
Python floats are modelled as exact rationals, so the model agrees with
CPython wherever the arithmetic is exact; power with a non-integral
exponent (an irrational or complex result in Python) and the few
non-arithmetic forms writable in the allowed alphabet (such as the
empty tuple `()` or call syntax like `2(3)`) fall outside the modelled
fragment and are mapped to error results. No claim below depends on
those corner cases.
-/

/-- Decidable equality on `Except`, used to evaluate the embedded
functions on concrete inputs. -/
instance {ε α : Type} [DecidableEq ε] [DecidableEq α] : DecidableEq (Except ε α) := fun a b =>
  match a, b with
  | .error e, .error f =>
    if h : e = f then isTrue (by rw [h]) else isFalse (fun hh => h (by injection hh))
  | .ok x, .ok y =>
    if h : x = y then isTrue (by rw [h]) else isFalse (fun hh => h (by injection hh))
  | .error _, .ok _ => isFalse (fun hh => by injection hh)
  | .ok _, .error _ => isFalse (fun hh => by injection hh)

/-- A Python numeric value as produced by evaluating an arithmetic
expression: an `int` or a `float` (floats modelled as exact rationals). -/
inductive PyNum where
  | int (n : Int)
  | float (q : ℚ)
deriving DecidableEq, Repr

/-- Runtime/compile errors that Python `eval` can raise on the modelled
fragment.  `zeroDivision` carries the CPython message text. -/
inductive PyErr where
  | zeroDivision (msg : String)
  | syntaxError
  | nonRationalPow
deriving DecidableEq, Repr

/-- The message `str(e)` used when the calculator captures the error;
`syntaxError` is abstracted to the generic CPython text. -/
def pyErrMsg : PyErr → String
  | .zeroDivision msg => msg
  | .syntaxError => "invalid syntax"
  | .nonRationalPow => "power with non-integral exponent outside the rational model"

/-- Numeric coercion to the rationals (Python int-to-float widening). -/
def PyNum.toQ : PyNum → ℚ
  | .int n => (n : ℚ)
  | .float q => q

def pyAdd : PyNum → PyNum → PyNum
  | .int a, .int b => .int (a + b)
  | a, b => .float (a.toQ + b.toQ)

def pySub : PyNum → PyNum → PyNum
  | .int a, .int b => .int (a - b)
  | a, b => .float (a.toQ - b.toQ)

def pyMul : PyNum → PyNum → PyNum
  | .int a, .int b => .int (a * b)
  | a, b => .float (a.toQ * b.toQ)

def pyNeg : PyNum → PyNum
  | .int a => .int (-a)
  | .float q => .float (-q)

/-- Python `/`: true division, always a float, `ZeroDivisionError` on a
zero divisor (with the int or float flavour of the message). -/
def pyDiv (a b : PyNum) : Except PyErr PyNum :=
  if b.toQ = 0 then
    .error (.zeroDivision (match a, b with
      | .int _, .int _ => "division by zero"
      | _, _ => "float division by zero"))
  else .ok (.float (a.toQ / b.toQ))

/-- Python `//`: floor division; int when both operands are ints. -/
def pyFloorDiv (a b : PyNum) : Except PyErr PyNum :=
  match a, b with
  | .int x, .int y =>
    if y = 0 then .error (.zeroDivision "integer division or modulo by zero")
    else .ok (.int (Int.fdiv x y))
  | _, _ =>
    if b.toQ = 0 then .error (.zeroDivision "float floor division by zero")
    else .ok (.float ((Rat.floor (a.toQ / b.toQ) : Int) : ℚ))

/-- Python `%`: remainder with the sign of the divisor,
`a - b * floor(a / b)`. -/
def pyMod (a b : PyNum) : Except PyErr PyNum :=
  match a, b with
  | .int x, .int y =>
    if y = 0 then .error (.zeroDivision "integer division or modulo by zero")
    else .ok (.int (Int.fmod x y))
  | _, _ =>
    if b.toQ = 0 then .error (.zeroDivision "float modulo")
    else .ok (.float (a.toQ - b.toQ * ((Rat.floor (a.toQ / b.toQ) : Int) : ℚ)))

/-- Integer power of a rational (used for Python `**` with a negative or
float-integral exponent). -/
def qpowInt (q : ℚ) (e : Int) : ℚ :=
  if 0 ≤ e then q ^ e.toNat else (q ^ (-e).toNat)⁻¹

/-- Python `**` on the modelled fragment.  `int ** nonnegative int` stays
an int; a negative exponent or a float operand gives a float; `0` to a
negative power raises `ZeroDivisionError`; a non-integral exponent leaves
the rational model (irrational or complex in Python) and is mapped to
`nonRationalPow`. -/
def pyPow (a b : PyNum) : Except PyErr PyNum :=
  match b with
  | .int e =>
    if 0 ≤ e then
      match a with
      | .int n => .ok (.int (n ^ e.toNat))
      | .float q => .ok (.float (q ^ e.toNat))
    else
      if a.toQ = 0 then .error (.zeroDivision "0.0 cannot be raised to a negative power")
      else .ok (.float (qpowInt a.toQ e))
  | .float e =>
    if e.den = 1 then
      if e.num < 0 && a.toQ = 0 then
        .error (.zeroDivision "0.0 cannot be raised to a negative power")
      else .ok (.float (qpowInt a.toQ e.num))
    else
      if a.toQ = 0 then
        if e < 0 then .error (.zeroDivision "0.0 cannot be raised to a negative power")
        else .ok (.float 0)
      else .error .nonRationalPow

/-- Tokens of the Python expression grammar reachable from the
calculator's allowed alphabet. -/
inductive Tok where
  | num (v : PyNum)
  | plus
  | minus
  | star
  | dstar
  | slash
  | dslash
  | percent
  | lparen
  | rparen
deriving DecidableEq, Repr

def digitVal (c : Char) : Nat := c.toNat - 48

def natOfDigits (ds : List Char) : Nat :=
  ds.foldl (fun a c => a * 10 + digitVal c) 0

/-- Lex one numeric literal (Python `NUMBER` token restricted to the
allowed alphabet): `digits [. digits]`, `digits .`, or `. digits`.
A lone `.` is a syntax error, as is a multi-digit integer literal with a
leading zero (Python 3 forbids those unless every digit is zero). -/
def lexNum (cs : List Char) : Except PyErr (PyNum × List Char) :=
  let ip := cs.takeWhile Char.isDigit
  let r1 := cs.drop ip.length
  match r1 with
  | '.' :: r2 =>
    let fp := r2.takeWhile Char.isDigit
    let r3 := r2.drop fp.length
    if ip.isEmpty && fp.isEmpty then .error .syntaxError
    else .ok (.float ((natOfDigits ip : ℚ) + (natOfDigits fp : ℚ) / (10 : ℚ) ^ fp.length), r3)
  | _ =>
    match ip with
    | [] => .error .syntaxError
    | c :: rest =>
      if c = '0' && rest.any (fun d => d != '0') then .error .syntaxError
      else .ok (.int (natOfDigits ip : Int), r1)

/-- Tokenizer for the allowed alphabet; `**` and `//` are lexed greedily
as single tokens, spaces are skipped.  Fuel is one more than the number
of characters, which always suffices since every step consumes a
character. -/
def lexAux : Nat → List Char → Except PyErr (List Tok)
  | 0, _ => .error .syntaxError
  | _ + 1, [] => .ok []
  | fuel + 1, ' ' :: cs => lexAux fuel cs
  | fuel + 1, '+' :: cs => (lexAux fuel cs).map (Tok.plus :: ·)
  | fuel + 1, '-' :: cs => (lexAux fuel cs).map (Tok.minus :: ·)
  | fuel + 1, '*' :: '*' :: cs => (lexAux fuel cs).map (Tok.dstar :: ·)
  | fuel + 1, '*' :: cs => (lexAux fuel cs).map (Tok.star :: ·)
  | fuel + 1, '/' :: '/' :: cs => (lexAux fuel cs).map (Tok.dslash :: ·)
  | fuel + 1, '/' :: cs => (lexAux fuel cs).map (Tok.slash :: ·)
  | fuel + 1, '%' :: cs => (lexAux fuel cs).map (Tok.percent :: ·)
  | fuel + 1, '(' :: cs => (lexAux fuel cs).map (Tok.lparen :: ·)
  | fuel + 1, ')' :: cs => (lexAux fuel cs).map (Tok.rparen :: ·)
  | fuel + 1, c :: cs =>
    if c.isDigit || c = '.' then
      match lexNum (c :: cs) with
      | .error e => .error e
      | .ok (v, rest) => (lexAux fuel rest).map (Tok.num v :: ·)
    else .error .syntaxError

def lex (s : String) : Except PyErr (List Tok) :=
  lexAux (s.length + 1) s.toList

mutual

/-- `+`/`-` level of the Python grammar (lowest precedence here). -/
def parseArith (fuel : Nat) (ts : List Tok) : Except PyErr (PyNum × List Tok) :=
  match fuel with
  | 0 => .error .syntaxError
  | fuel + 1 => do
    let (v, r) ← parseTerm fuel ts
    parseArithLoop fuel v r

def parseArithLoop (fuel : Nat) (acc : PyNum) (ts : List Tok) : Except PyErr (PyNum × List Tok) :=
  match fuel with
  | 0 => .error .syntaxError
  | fuel + 1 =>
    match ts with
    | Tok.plus :: r => do
      let (v, r2) ← parseTerm fuel r
      parseArithLoop fuel (pyAdd acc v) r2
    | Tok.minus :: r => do
      let (v, r2) ← parseTerm fuel r
      parseArithLoop fuel (pySub acc v) r2
    | _ => .ok (acc, ts)

/-- `*`, `/`, `//`, `%` level. -/
def parseTerm (fuel : Nat) (ts : List Tok) : Except PyErr (PyNum × List Tok) :=
  match fuel with
  | 0 => .error .syntaxError
  | fuel + 1 => do
    let (v, r) ← parseFactor fuel ts
    parseTermLoop fuel v r

def parseTermLoop (fuel : Nat) (acc : PyNum) (ts : List Tok) : Except PyErr (PyNum × List Tok) :=
  match fuel with
  | 0 => .error .syntaxError
  | fuel + 1 =>
    match ts with
    | Tok.star :: r => do
      let (v, r2) ← parseFactor fuel r
      parseTermLoop fuel (pyMul acc v) r2
    | Tok.slash :: r => do
      let (v, r2) ← parseFactor fuel r
      let w ← pyDiv acc v
      parseTermLoop fuel w r2
    | Tok.dslash :: r => do
      let (v, r2) ← parseFactor fuel r
      let w ← pyFloorDiv acc v
      parseTermLoop fuel w r2
    | Tok.percent :: r => do
      let (v, r2) ← parseFactor fuel r
      let w ← pyMod acc v
      parseTermLoop fuel w r2
    | _ => .ok (acc, ts)

/-- Unary `+`/`-` level (binds tighter than `* / // %`, looser than `**`). -/
def parseFactor (fuel : Nat) (ts : List Tok) : Except PyErr (PyNum × List Tok) :=
  match fuel with
  | 0 => .error .syntaxError
  | fuel + 1 =>
    match ts with
    | Tok.plus :: r => (parseFactor fuel r).map (fun p => (p.1, p.2))
    | Tok.minus :: r => (parseFactor fuel r).map (fun p => (pyNeg p.1, p.2))
    | _ => parsePower fuel ts

/-- `**` level: right operand is a unary expression (Python
right-associativity, and `2 ** -3` is legal). -/
def parsePower (fuel : Nat) (ts : List Tok) : Except PyErr (PyNum × List Tok) :=
  match fuel with
  | 0 => .error .syntaxError
  | fuel + 1 => do
    let (b, r) ← parseAtom fuel ts
    match r with
    | Tok.dstar :: r2 => do
      let (e, r3) ← parseFactor fuel r2
      let w ← pyPow b e
      .ok (w, r3)
    | _ => .ok (b, r)

/-- Atoms: numeric literals and parenthesised expressions. -/
def parseAtom (fuel : Nat) (ts : List Tok) : Except PyErr (PyNum × List Tok) :=
  match fuel with
  | 0 => .error .syntaxError
  | fuel + 1 =>
    match ts with
    | Tok.num v :: r => .ok (v, r)
    | Tok.lparen :: r => do
      let (v, r2) ← parseArith fuel r
      match r2 with
      | Tok.rparen :: r3 => .ok (v, r3)
      | _ => .error .syntaxError
    | _ => .error .syntaxError

end

/-- Model of Python `eval` on the calculator's allowed alphabet: lex,
parse-and-evaluate, and require that all tokens are consumed. -/
def pyEval (s : String) : Except PyErr PyNum := do
  let ts ← lex s
  let (v, rest) ← parseArith (6 * ts.length + 8) ts
  match rest with
  | [] => .ok v
  | _ => .error .syntaxError

example : pyEval "2+2" = .ok (.int 4) := by decide
example : pyEval "10/0" = .error (.zeroDivision "division by zero") := by decide
example : pyEval "2**3" = .ok (.int 8) := by decide
example : pyEval "7//2" = .ok (.int 3) := by decide
example : pyEval "" = .error .syntaxError := by decide
example : pyEval "-7%2" = .ok (.int 1) := by decide
example : pyEval "-2**2" = .ok (.int (-4)) := by decide
example : pyEval "(1+2)*3" = .ok (.int 9) := by decide
example : pyEval "012" = .error .syntaxError := by decide

/-- The result value of a tool implementation, as a Python dict:
`{"datetime": s}`, `{"result": v}` or `{"error": m}`
(main.py lines 73-86). -/
inductive ToolOutput where
  | datetime (s : String)
  | result (v : PyNum)
  | error (msg : String)
deriving DecidableEq, Repr

/-- The allow-list `set('0123456789+-*/()%. ')` of main.py line 79. -/
def allowed_chars : List Char := "0123456789+-*/()%. ".toList

/-- `calculator` (main.py lines 76-86): if every character of the
expression is in the allow-list, `eval` it, capturing any exception as
`{"error": str(e)}`; otherwise return `{"error": "Invalid expression"}`
without evaluating. -/
def calculator (expression : String) : ToolOutput :=
  if expression.toList.all (fun c => allowed_chars.contains c) then
    match pyEval expression with
    | .ok v => .result v
    | .error e => .error (pyErrMsg e)
  else .error "Invalid expression"

/-- `get_current_datetime` (main.py lines 73-74): returns the process
clock reading, threaded in explicitly as `now`. -/
def get_current_datetime (now : String) : ToolOutput :=
  .datetime now

example : calculator "2+2" = .result (.int 4) := by decide
example : calculator "10/0" = .error "division by zero" := by decide
example : calculator "import os" = .error "Invalid expression" := by decide

/-- One property of a JSON-Schema-like `parameters` object
(main.py lines 50-68). -/
structure ToolProperty where
  name : String
  type : String
  description : String
deriving DecidableEq, Repr

/-- The `parameters` object of a tool schema (main.py lines 50-68). -/
structure ToolParameters where
  type : String
  properties : List ToolProperty
  required : List String
deriving DecidableEq, Repr

/-- An entry of the tool catalog (main.py lines 46-70). -/
structure ToolSchema where
  name : String
  description : String
  parameters : ToolParameters
deriving DecidableEq, Repr

/-- The static tool catalog `TOOLS` (main.py lines 46-70), never
mutated anywhere in the source. -/
def TOOLS : List ToolSchema :=
  [ { name := "get_current_datetime",
      description := "Returns the current date and time in ISO 8601 format",
      parameters := { type := "object", properties := [], required := [] } },
    { name := "calculator",
      description := "Calculate mathematical expressions safely",
      parameters :=
        { type := "object",
          properties :=
            [ { name := "expression",
                type := "string",
                description := "Mathematical expression to evaluate" } ],
          required := ["expression"] } } ]

/-- Tag for the two values of the dispatch dict `TOOL_FUNCTIONS`
(main.py lines 88-91). -/
inductive ToolImpl where
  | getCurrentDatetimeImpl
  | calculatorImpl
deriving DecidableEq, Repr

/-- The dispatch dict `TOOL_FUNCTIONS` (main.py lines 88-91), a static
mapping from tool name to implementation, never mutated. -/
def TOOL_FUNCTIONS : List (String × ToolImpl) :=
  [("get_current_datetime", ToolImpl.getCurrentDatetimeImpl),
   ("calculator", ToolImpl.calculatorImpl)]

/-- A keyword-argument dict, modelled as an association list with
distinct keys (Python dict keys are unique); values are strings, the
only value type the endpoints exercise. -/
abbrev Kwargs : Type := List (String × String)

/-- Python call `f(**parameters)` for a tool implementation: keyword
binding succeeds only when the supplied names match the signature
exactly, otherwise the call raises `TypeError` (modelled as `.error`
carrying the message text, apostrophes elided).
`get_current_datetime` takes no arguments; `calculator` takes exactly
the one required argument `expression`. -/
def callToolImpl (now : String) : ToolImpl → Kwargs → Except String ToolOutput
  | .getCurrentDatetimeImpl, ([] : List (String × String)) => .ok (get_current_datetime now)
  | .getCurrentDatetimeImpl, _ =>
    .error "get_current_datetime() got an unexpected keyword argument"
  | .calculatorImpl, ([(k, v)] : List (String × String)) =>
    if k = "expression" then .ok (calculator v)
    else .error "calculator() got an unexpected keyword argument"
  | .calculatorImpl, ([] : List (String × String)) =>
    .error "calculator() missing 1 required positional argument: expression"
  | .calculatorImpl, _ =>
    .error "calculator() got an unexpected keyword argument"

/-- A FastAPI `HTTPException(status_code, detail)`. -/
structure HTTPExceptionM where
  status_code : Nat
  detail : String
deriving DecidableEq, Repr

/-- The body `{"tool": name, "result": result}` returned by
`execute_tool` on success (main.py line 160). -/
structure ExecuteToolResult where
  tool : String
  result : ToolOutput
deriving DecidableEq, Repr

/-- `execute_tool` (main.py lines 152-162): 404 when the name is not a
key of `TOOL_FUNCTIONS` (checked before any call); otherwise invoke the
implementation, converting a raised `TypeError` into a 400 with the
error text as detail. -/
def execute_tool (now : String) (name : String) (parameters : Kwargs) :
    Except HTTPExceptionM ExecuteToolResult :=
  match (TOOL_FUNCTIONS.lookup name : Option ToolImpl) with
  | none => .error { status_code := 404, detail := "Tool " ++ name ++ " not found" }
  | some impl =>
    match callToolImpl now impl parameters with
    | .ok r => .ok { tool := name, result := r }
    | .error e => .error { status_code := 400, detail := e }


example : execute_tool "T" "nonexistent" [] =
    .error { status_code := 404, detail := "Tool nonexistent not found" } := by decide
example : execute_tool "T" "calculator" [] =
    .error { status_code := 400,
             detail := "calculator() missing 1 required positional argument: expression" } := by decide

/-- The configured model identifier `DEFAULT_MODEL` (main.py line 28). -/
def DEFAULT_MODEL : String := "gemma3-27b"

/-- A wire-level inbound chat message: pydantic keeps only the declared
fields `role` and `content` of `ChatMessage` (main.py lines 31-33) and
silently drops anything else, modelled by `extraFields`. -/
structure RawChatMessage where
  role : String
  content : String
  extraFields : List (String × String)
deriving DecidableEq, Repr

/-- The parsed `ChatMessage` pydantic model (main.py lines 31-33). -/
structure ChatMessageM where
  role : String
  content : String
deriving DecidableEq, Repr

/-- Pydantic validation of one inbound message: keep `role` and
`content`, discard everything else. -/
def parseChatMessage (m : RawChatMessage) : ChatMessageM :=
  { role := m.role, content := m.content }

/-- The `ChatRequest` pydantic model (main.py lines 35-38). -/
structure ChatRequestM where
  messages : List ChatMessageM
  conversationId : String
  userId : Option String
deriving DecidableEq, Repr

/-- Pydantic validation of an inbound request body. -/
def parseChatRequest (raws : List RawChatMessage) (cid : String) (uid : Option String) :
    ChatRequestM :=
  { messages := raws.map parseChatMessage, conversationId := cid, userId := uid }

/-- The debug dict `{"model": ..., "tools_available": ...}` attached at
main.py line 136. -/
structure DebugInfo where
  model : String
  tools_available : Nat
deriving DecidableEq, Repr

/-- The `ChatResponse` pydantic model (main.py lines 40-43). -/
structure ChatResponseM where
  message : String
  toolsUsed : Option (List String)
  debug : Option DebugInfo
deriving DecidableEq, Repr

/-- One `{"role": ..., "content": ...}` entry of the downstream
`messages` field (main.py line 121). -/
structure PayloadMessage where
  role : String
  content : String
deriving DecidableEq, Repr

/-- The JSON payload posted to the LLM server (main.py lines 97-106).
`tools` and `tool_choice` are present only when `include_tools` is true;
the temperature literal 0.7 is modelled as the exact rational 7/10. -/
structure LlmPayload where
  model : String
  messages : List PayloadMessage
  temperature : ℚ
  max_tokens : Nat
  tools : Option (List ToolSchema)
  tool_choice : Option String
deriving DecidableEq, Repr

/-- Payload construction of `call_llm_with_tools` (main.py lines 97-106). -/
def buildPayload (messages : List PayloadMessage) (include_tools : Bool) : LlmPayload :=
  let payload : LlmPayload :=
    { model := DEFAULT_MODEL, messages := messages, temperature := 7 / 10,
      max_tokens := 512, tools := none, tool_choice := none }
  if include_tools then
    { payload with tools := some TOOLS, tool_choice := some "auto" }
  else payload

/-- The `message` object inside a downstream choice; `content` is
`none` when the key is absent. -/
structure LlmMessage where
  content : Option String
deriving DecidableEq, Repr

/-- One entry of the downstream `choices` array; `message` is `none`
when the key is absent. -/
structure LlmChoice where
  message : Option LlmMessage
deriving DecidableEq, Repr

/-- The JSON body of a 2xx downstream response; `choices` is `none`
when the key is absent. -/
structure LlmResponse where
  choices : Option (List LlmChoice)
deriving DecidableEq, Repr

/-- Result of the single outbound HTTP call made by
`call_llm_with_tools` (main.py lines 110-113): either an
`httpx.HTTPError` (connection failure, timeout, or the
`raise_for_status()` on a non-2xx status) carrying `str(e)`, or the
parsed JSON body of a 2xx response. -/
inductive DownstreamOutcome where
  | transportError (msg : String)
  | success (r : LlmResponse)
deriving DecidableEq, Repr

/-- The exception raised while reading
`llm_response["choices"][0]["message"]["content"]` (main.py line 129)
when the shape is unexpected: `KeyError` for a missing key,
`IndexError` for an empty `choices` array. -/
inductive ExtractErr where
  | keyError (key : String)
  | indexError
deriving DecidableEq, Repr

/-- `str(e)` of an extraction exception (CPython quotes the key of a
`KeyError`; the quoting is elided here). -/
def extractErrMsg : ExtractErr → String
  | .keyError k => k
  | .indexError => "list index out of range"

/-- The subscript chain of main.py line 129 as a fallible lookup. -/
def extractContent (r : LlmResponse) : Except ExtractErr String :=
  match r.choices with
  | none => .error (.keyError "choices")
  | some [] => .error .indexError
  | some (c :: _) =>
    match c.message with
    | none => .error (.keyError "message")
    | some m =>
      match m.content with
      | none => .error (.keyError "content")
      | some s => .ok s

/-- The two `except` branches of `chat` (main.py lines 139-144):
`httpError` is the `except httpx.HTTPError` branch, `internalError` the
final `except Exception` catch-all.  Both carry the `detail` string of
the `HTTPException` they raise. -/
inductive ChatErr where
  | httpError (detail : String)
  | internalError (detail : String)
deriving DecidableEq, Repr

/-- The `HTTPException` each branch raises: status 500 in both cases
(main.py lines 141 and 144). -/
def ChatErr.toHTTPException : ChatErr → HTTPExceptionM
  | .httpError d => { status_code := 500, detail := d }
  | .internalError d => { status_code := 500, detail := d }

/-- The body of `chat` (main.py lines 117-144) after the outbound call
resolved to `outcome`: a transport error is caught by the
`except httpx.HTTPError` branch with detail `"LLM server error: " ++
str(e)`; on a 2xx response the content is extracted (an exception there
falls to the `except Exception` catch-all), `toolsUsed` is always
`None`, and the debug dict is attached exactly when
`request.userId == "debug"`. -/
def chatOutcome (request : ChatRequestM) (outcome : DownstreamOutcome) :
    Except ChatErr ChatResponseM :=
  match outcome with
  | .transportError msg => .error (.httpError ("LLM server error: " ++ msg))
  | .success r =>
    match extractContent r with
    | .error e => .error (.internalError (extractErrMsg e))
    | .ok assistant_message =>
      .ok { message := assistant_message,
            toolsUsed := none,
            debug := if request.userId = some "debug"
                     then some { model := DEFAULT_MODEL, tools_available := TOOLS.length }
                     else none }

/-- `chat` with the downstream server abstracted as a function from
payload to outcome; also returns the list of payloads posted, to state
that exactly one outbound call is made (main.py line 125). -/
def chatTraced (downstream : LlmPayload → DownstreamOutcome) (request : ChatRequestM) :
    Except ChatErr ChatResponseM × List LlmPayload :=
  let messages := request.messages.map (fun msg => PayloadMessage.mk msg.role msg.content)
  let payload := buildPayload messages true
  (chatOutcome request (downstream payload), [payload])

/-- The `chat` endpoint (main.py lines 115-144). -/
def chat (downstream : LlmPayload → DownstreamOutcome) (request : ChatRequestM) :
    Except ChatErr ChatResponseM :=
  (chatTraced downstream request).1

/-- The body returned by the health endpoint (main.py line 149). -/
structure HealthResponse where
  status : String
  model : String
  tools : Nat
deriving DecidableEq, Repr

/-- `health` (main.py lines 146-149): a constant, side-effect-free
computation. -/
def health : HealthResponse :=
  { status := "healthy", model := DEFAULT_MODEL, tools := TOOLS.length }

example : health = { status := "healthy", model := "gemma3-27b", tools := 2 } := by decide

/-- Claim C1: for every request processed with a healthy downstream
(the call succeeds and the JSON has `choices[0].message.content = s`),
`chat` returns a response whose `message` is exactly `s`, unmodified,
and whose `toolsUsed` is `None` (main.py lines 129-137). -/
theorem chat_passthrough_healthy (downstream : LlmPayload → DownstreamOutcome)
    (request : ChatRequestM) (s : String) (rest : List LlmChoice)
    (healthy : ∀ p, downstream p =
      .success { choices := some ({ message := some { content := some s } } :: rest) }) :
    ∃ resp, chat downstream request = Except.ok resp ∧
      resp.message = s ∧ resp.toolsUsed = none := by
  refine ⟨{ message := s, toolsUsed := none,
            debug := if request.userId = some "debug"
                     then some { model := DEFAULT_MODEL, tools_available := TOOLS.length }
                     else none }, ?_, rfl, rfl⟩
  show chatOutcome request (downstream _) = _
  rw [healthy]
  rfl

/-- Closed witness for C1. -/
theorem chat_passthrough_healthy_witness :
    ∃ resp,
      chat (fun _ => .success { choices := some [{ message := some { content := some "hello" } }] })
        { messages := [], conversationId := "c0", userId := none } = Except.ok resp ∧
      resp.message = "hello" ∧ resp.toolsUsed = none :=
  chat_passthrough_healthy _ _ "hello" [] (fun _ => rfl)

/-- Claim C2: with a healthy downstream, the response's `debug` field
equals `{model: DEFAULT_MODEL, tools_available: 2}` exactly when
`request.userId` is the string `"debug"`, and is absent for every other
`userId` including `None` (main.py line 136). -/
theorem chat_debug_disclosure (downstream : LlmPayload → DownstreamOutcome)
    (request : ChatRequestM) (s : String) (rest : List LlmChoice)
    (healthy : ∀ p, downstream p =
      .success { choices := some ({ message := some { content := some s } } :: rest) }) :
    chat downstream request =
      Except.ok { message := s, toolsUsed := none,
                  debug := if request.userId = some "debug"
                           then some { model := DEFAULT_MODEL, tools_available := 2 }
                           else none } := by
  show chatOutcome request (downstream _) = _
  rw [healthy]
  rfl

/-- Closed witness for C2: debug present for `userId = "debug"`, absent
for an absent `userId`. -/
theorem chat_debug_disclosure_witness :
    chat (fun _ => .success { choices := some [{ message := some { content := some "hi" } }] })
      { messages := [], conversationId := "c", userId := some "debug" } =
      Except.ok { message := "hi", toolsUsed := none,
                  debug := some { model := "gemma3-27b", tools_available := 2 } } ∧
    chat (fun _ => .success { choices := some [{ message := some { content := some "hi" } }] })
      { messages := [], conversationId := "c", userId := none } =
      Except.ok { message := "hi", toolsUsed := none, debug := none } := by
  constructor
  · have h := chat_debug_disclosure
      (fun _ => .success { choices := some [{ message := some { content := some "hi" } }] })
      { messages := [], conversationId := "c", userId := some "debug" } "hi" [] (fun _ => rfl)
    simpa [DEFAULT_MODEL] using h
  · have h := chat_debug_disclosure
      (fun _ => .success { choices := some [{ message := some { content := some "hi" } }] })
      { messages := [], conversationId := "c", userId := none } "hi" [] (fun _ => rfl)
    simpa using h

/-- Claim C3: `calculator` is total by construction; a string with any
character outside the allow-list yields `{error: "Invalid expression"}`
without reaching evaluation, a string that passes the filter yields
either `{error: str(e)}` when evaluation raises or `{result: v}` when it
returns `v`; concretely `calculator "2+2" = {result: 4}` and
`calculator "10/0" = {error: "division by zero"}`
(main.py lines 76-86). -/
theorem calculator_totality (s : String) :
    (s.toList.all (fun c => allowed_chars.contains c) = false →
      calculator s = .error "Invalid expression")
    ∧ (s.toList.all (fun c => allowed_chars.contains c) = true →
      (∃ e, pyEval s = .error e ∧ calculator s = .error (pyErrMsg e))
      ∨ (∃ v, pyEval s = .ok v ∧ calculator s = .result v))
    ∧ calculator "2+2" = .result (.int 4)
    ∧ calculator "10/0" = .error "division by zero" := by
  refine ⟨fun h => ?_, fun h => ?_, by decide, by decide⟩
  · unfold calculator
    rw [h]
    rfl
  · unfold calculator
    rw [h]
    cases he : pyEval s with
    | error e => exact Or.inl ⟨e, rfl, rfl⟩
    | ok v => exact Or.inr ⟨v, rfl, rfl⟩

/-- Closed witness for C3: a filtered-out input and an evaluated one. -/
theorem calculator_totality_witness :
    calculator "import os" = .error "Invalid expression" ∧
    calculator "2+2" = .result (.int 4) :=
  ⟨(calculator_totality "import os").1 (by decide),
   (calculator_totality "2+2").2.2.1⟩

/-- Claim C4: `execute_tool` returns a 404 whenever the name is not a
key of `TOOL_FUNCTIONS`, independently of the parameters and of any
tool behaviour (the check precedes every call); a known name whose
keyword binding fails (such as `calculator` with the required
`expression` missing) gives a 400 carrying the `TypeError` text;
otherwise the result is `{tool: name, result: ...}`
(main.py lines 152-162). -/
theorem execute_tool_contract (now name : String) (parameters : Kwargs) :
    (name ∉ TOOL_FUNCTIONS.map Prod.fst →
      execute_tool now name parameters =
        .error { status_code := 404, detail := "Tool " ++ name ++ " not found" })
    ∧ execute_tool now "calculator" [] =
        .error { status_code := 400,
                 detail := "calculator() missing 1 required positional argument: expression" }
    ∧ (∀ v, execute_tool now "calculator" [("expression", v)] =
        .ok { tool := "calculator", result := calculator v })
    ∧ execute_tool now "get_current_datetime" [] =
        .ok { tool := "get_current_datetime", result := .datetime now } := by
  refine ⟨fun h => ?_, rfl, fun v => rfl, rfl⟩
  have h1 : name ≠ "get_current_datetime" := by
    intro e; exact h (by rw [e]; decide)
  have h2 : name ≠ "calculator" := by
    intro e; exact h (by rw [e]; decide)
  have e1 : (name == "get_current_datetime") = false := beq_eq_false_iff_ne.mpr h1
  have e2 : (name == "calculator") = false := beq_eq_false_iff_ne.mpr h2
  simp only [execute_tool, TOOL_FUNCTIONS, List.lookup, e1, e2]

/-- Closed witness for C4: unknown tool gives 404, missing required
parameter gives 400. -/
theorem execute_tool_contract_witness :
    execute_tool "T" "nonexistent" [] =
      .error { status_code := 404, detail := "Tool nonexistent not found" } ∧
    execute_tool "T" "calculator" [] =
      .error { status_code := 400,
               detail := "calculator() missing 1 required positional argument: expression" } :=
  ⟨(execute_tool_contract "T" "nonexistent" []).1 (by decide),
   (execute_tool_contract "T" "calculator" []).2.1⟩

/-- Claim C5: when the outbound call fails at the transport/HTTP level
(`httpx.HTTPError`, covering connection failures and the
`raise_for_status()` on a non-2xx response), `chat` fails through the
`except httpx.HTTPError` branch — the spec's
`DownstreamUnavailableError` — surfaced as an `HTTPException` with
status 500 whose detail contains the downstream error text
(main.py lines 110-111 and 139-141). -/
theorem chat_transport_failure (downstream : LlmPayload → DownstreamOutcome)
    (request : ChatRequestM) (msg : String)
    (hfail : ∀ p, downstream p = .transportError msg) :
    ∃ e, chat downstream request = Except.error e
      ∧ e = .httpError ("LLM server error: " ++ msg)
      ∧ e.toHTTPException.status_code = 500
      ∧ ∃ pre, e.toHTTPException.detail = pre ++ msg := by
  refine ⟨.httpError ("LLM server error: " ++ msg), ?_, rfl, rfl, "LLM server error: ", rfl⟩
  show chatOutcome request (downstream _) = _
  rw [hfail]
  rfl

/-- Closed witness for C5. -/
theorem chat_transport_failure_witness :
    ∃ e, chat (fun _ => .transportError "Server error 500")
        { messages := [], conversationId := "c", userId := none } = Except.error e
      ∧ e = .httpError ("LLM server error: " ++ "Server error 500")
      ∧ e.toHTTPException.status_code = 500
      ∧ ∃ pre, e.toHTTPException.detail = pre ++ "Server error 500" :=
  chat_transport_failure _ _ "Server error 500" (fun _ => rfl)

/-- Claim C6, counterexample: the claim says a malformed 2xx shape makes
`chat` fail with a `DownstreamProtocolError` distinct from the
`InternalError` catch-all, but the code has no such error: at the
concrete input below (a 2xx response with an empty `choices` array) the
`IndexError` falls into the final `except Exception` catch-all — the
`ChatErr.internalError` branch, which is the `InternalError` of the
spec's taxonomy — so the failure is not distinct from the catch-all
(main.py lines 129 and 142-144). -/
theorem chat_malformed_shape_counterexample :
    chat (fun _ => .success { choices := some [] })
      { messages := [{ role := "user", content := "hi" }],
        conversationId := "c1", userId := none } =
      Except.error (ChatErr.internalError "list index out of range") := by
  decide

/-- Claim C6, amended: when the downstream call succeeds but the JSON
does not contain `choices[0].message.content`, `chat` fails through the
generic `except Exception` catch-all with a 500 whose detail is the
extraction error text; the code raises no distinct protocol error but
does not crash opaquely — the exception is converted at the HTTP
boundary (main.py lines 129 and 142-144). -/
theorem chat_malformed_shape_catchall (downstream : LlmPayload → DownstreamOutcome)
    (request : ChatRequestM) (r : LlmResponse) (e : ExtractErr)
    (hshape : ∀ p, downstream p = .success r)
    (hext : extractContent r = .error e) :
    chat downstream request = Except.error (.internalError (extractErrMsg e))
    ∧ (ChatErr.internalError (extractErrMsg e)).toHTTPException.status_code = 500 := by
  refine ⟨?_, rfl⟩
  show chatOutcome request (downstream _) = _
  rw [hshape]
  simp [chatOutcome, hext]

/-- Closed witness for the amended C6. -/
theorem chat_malformed_shape_catchall_witness :
    chat (fun _ => .success { choices := none })
      { messages := [], conversationId := "c2", userId := none } =
      Except.error (ChatErr.internalError "choices")
    ∧ (ChatErr.internalError "choices").toHTTPException.status_code = 500 :=
  chat_malformed_shape_catchall _ _ { choices := none } (.keyError "choices")
    (fun _ => rfl) rfl

/-- Claim C7: the payload posted downstream is exactly
`{model: DEFAULT_MODEL, messages: the request's messages reduced to
{role, content} pairs in order with other fields discarded,
temperature: 0.7, max_tokens: 512, tools: the full two-entry catalog,
tool_choice: "auto"}`, and exactly one outbound call is made per
request (main.py lines 97-106, 121 and 125). -/
theorem chat_payload_construction (downstream : LlmPayload → DownstreamOutcome)
    (raws : List RawChatMessage) (cid : String) (uid : Option String) :
    (chatTraced downstream (parseChatRequest raws cid uid)).2 =
      [{ model := "gemma3-27b",
         messages := raws.map (fun m => { role := m.role, content := m.content }),
         temperature := 7 / 10,
         max_tokens := 512,
         tools := some TOOLS,
         tool_choice := some "auto" }]
    ∧ (chatTraced downstream (parseChatRequest raws cid uid)).2.length = 1
    ∧ TOOLS.length = 2 := by
  refine ⟨?_, rfl, rfl⟩
  simp [chatTraced, parseChatRequest, buildPayload, parseChatMessage,
        List.map_map, DEFAULT_MODEL]

/-- Claim C8: `health` always returns exactly
`{status: "healthy", model: DEFAULT_MODEL, tools: 2}`; it is a constant
pure computation with no failure path, so repeated calls are identical
(main.py lines 146-149). -/
theorem health_contract :
    health = { status := "healthy", model := "gemma3-27b", tools := 2 }
    ∧ health.model = DEFAULT_MODEL := by
  decide

/-- Claim C9: the catalog's tool names are unique and coincide with the
keys of the dispatch table, in the same order; both are static
constants, mutated by no operation in the source
(main.py lines 46-70 and 88-91). -/
theorem tool_catalog_invariant :
    (TOOLS.map ToolSchema.name).Nodup
    ∧ TOOLS.map ToolSchema.name = TOOL_FUNCTIONS.map Prod.fst := by
  decide

/-- Claim C10: the calculator's validation is per-character, not
token-level: `2**3` and `7//2` use operators outside the documented set
yet pass the filter and evaluate to `{result: 8}` and `{result: 3}`,
and the empty string passes the filter and produces an evaluation error
rather than the filter's `{error: "Invalid expression"}`
(main.py lines 79-84). -/
theorem calculator_filter_charlevel :
    ("2**3".toList.all (fun c => allowed_chars.contains c) = true)
    ∧ calculator "2**3" = .result (.int 8)
    ∧ ("7//2".toList.all (fun c => allowed_chars.contains c) = true)
    ∧ calculator "7//2" = .result (.int 3)
    ∧ ("".toList.all (fun c => allowed_chars.contains c) = true)
    ∧ calculator "" = .error (pyErrMsg .syntaxError)
    ∧ pyErrMsg .syntaxError ≠ "Invalid expression" := by
  decide
